import Mathlib

/-!
Shallow embedding of `pkg/k8sutils/k8sutils.go` (repository sindrepm/stork).

The Go file provides cluster helpers: group-snapshot PVC resolution
(`GetPVCsForGroupSnapshot`, `GetVolumeNamesFromLabelSelector`), CRD readiness
waiters (`ValidateCRD`, `ValidateCRDV1`), CRD creation (`CreateCRD`) and image
registry extraction (`GetImageRegistryFromDeployment`).

External collaborators (the `core.Instance()` client, the apiextensions
clientset) are modelled as explicit parameters: a record of fallible functions
for the core client, and a fetch-result value per poll for the CRD client.
Go errors are modelled as `Except String`; a Go panic from out-of-bounds
slice indexing is modelled as an explicit `.error` branch of the total
embedding.
-/

namespace K8sUtils

/-- `v1.ClaimPending` — phase values are typed strings in the Go API. -/
def claimPending : String := "Pending"

/-- `v1.ClaimBound` -/
def claimBound : String := "Bound"

/-- `v1.ClaimLost` -/
def claimLost : String := "Lost"

/-- The fields of `v1.PersistentVolumeClaim` that `k8sutils.go` reads:
`pvc.Namespace`, `pvc.Name`, `pvc.Status.Phase`. -/
structure PersistentVolumeClaim where
  ns : String
  name : String
  phase : String
  deriving DecidableEq, Repr

/-- The two operations of the `core.Instance()` collaborator used by the
resolver: `GetPersistentVolumeClaims(namespace, matchLabels)` and
`GetVolumeForPersistentVolumeClaim(pvc)`. Labels are a list of key/value
pairs (a Go `map[string]string`). -/
structure CoreClient where
  getPersistentVolumeClaims : String → List (String × String) → Except String (List PersistentVolumeClaim)
  getVolumeForPersistentVolumeClaim : PersistentVolumeClaim → Except String String

/-- The error message built by `GetPVCsForGroupSnapshot` for a pending PVC:
`fmt.Errorf("PVC: [%s] %s is still in %s phase. Group snapshot will trigger
after all PVCs are bound", pvc.Namespace, pvc.Name, pvc.Status.Phase)`. -/
def pendingPVCErrMsg (pvc : PersistentVolumeClaim) : String :=
  "PVC: [" ++ pvc.ns ++ "] " ++ pvc.name ++ " is still in " ++ pvc.phase ++
    " phase. Group snapshot will trigger after all PVCs are bound"

/-- The error message for an empty candidate list:
`fmt.Errorf("found no PVCs for group snapshot with given label selectors: %v",
matchLabels)`. Go's `%v` rendering of the label map is abstracted by
`toString` on the pair list. -/
def noPVCsErrMsg (matchLabels : List (String × String)) : String :=
  "found no PVCs for group snapshot with given label selectors: " ++ toString matchLabels

/-- `GetPVCsForGroupSnapshot(namespace, matchLabels)`: list the PVCs, fail if
the list errors or is empty, then scan the list and fail at the first PVC in
`Pending` phase; otherwise return the listed items. The Go `for` loop returns
at the first pending PVC, which is `List.find?`. -/
def GetPVCsForGroupSnapshot (c : CoreClient) (ns : String)
    (matchLabels : List (String × String)) : Except String (List PersistentVolumeClaim) :=
  match c.getPersistentVolumeClaims ns matchLabels with
  | .error e => .error e
  | .ok items =>
    if items.length = 0 then
      .error (noPVCsErrMsg matchLabels)
    else
      match items.find? (fun pvc => pvc.phase == claimPending) with
      | some pvc => .error (pendingPVCErrMsg pvc)
      | none => .ok items

/-- The `for` loop of `GetVolumeNamesFromLabelSelector`: resolve each PVC's
volume in order, returning the first lookup error, otherwise the volume names
in the same order as the PVCs. -/
def getVolumeNamesLoop (c : CoreClient) : List PersistentVolumeClaim → Except String (List String)
  | [] => .ok []
  | pvc :: rest =>
    match c.getVolumeForPersistentVolumeClaim pvc with
    | .error e => .error e
    | .ok volName =>
      match getVolumeNamesLoop c rest with
      | .error e => .error e
      | .ok volNames => .ok (volName :: volNames)

/-- `GetVolumeNamesFromLabelSelector(namespace, labels)`: resolve the candidate
PVCs, then map each to its volume name, aborting at the first error. -/
def GetVolumeNamesFromLabelSelector (c : CoreClient) (ns : String)
    (labels : List (String × String)) : Except String (List String) :=
  match GetPVCsForGroupSnapshot c ns labels with
  | .error e => .error e
  | .ok pvcs => getVolumeNamesLoop c pvcs

/-- `apiextensionsv1beta1.Established` — the condition-type constants of the
v1beta1 schema, typed strings in the Go API. -/
def EstablishedV1beta1 : String := "Established"

/-- `apiextensionsv1beta1.NamesAccepted` -/
def NamesAcceptedV1beta1 : String := "NamesAccepted"

/-- `apiextensionsv1beta1.ConditionTrue` -/
def ConditionTrueV1beta1 : String := "True"

/-- `apiextensionsv1beta1.ConditionFalse` -/
def ConditionFalseV1beta1 : String := "False"

/-- `apiextensionsv1.Established` — same string value, distinct Go constant. -/
def EstablishedV1 : String := "Established"

/-- `apiextensionsv1.NamesAccepted` -/
def NamesAcceptedV1 : String := "NamesAccepted"

/-- `apiextensionsv1.ConditionTrue` -/
def ConditionTrueV1 : String := "True"

/-- `apiextensionsv1.ConditionFalse` -/
def ConditionFalseV1 : String := "False"

/-- The fields of a CRD status condition read by the waiters:
`cond.Type`, `cond.Status`, `cond.Reason`. -/
structure CRDCondition where
  type : String
  status : String
  reason : String
  deriving DecidableEq, Repr

/-- The outcome of fetching a CRD by name on one poll:
`errors.IsNotFound(err)`, any other error, or the CRD's status conditions. -/
inductive GetCRDResult where
  | notFound
  | otherError (msg : String)
  | found (conditions : List CRDCondition)
  deriving DecidableEq, Repr

/-- The Go poll condition's `(bool, error)` return: `(true, nil)` is done,
`(false, nil)` continues polling, `(false, err)` aborts with `err`. -/
inductive PollResult where
  | done
  | notDone
  | failed (msg : String)
  deriving DecidableEq, Repr

/-- The `for _, cond := range crd.Status.Conditions` loop of `ValidateCRD`
(v1beta1): first condition of type `Established` with status `True` returns
done; first condition of type `NamesAccepted` with status `False` returns the
name-conflict error; any other condition is skipped. -/
def checkConditionsV1beta1 : List CRDCondition → PollResult
  | [] => .notDone
  | cond :: rest =>
    if cond.type == EstablishedV1beta1 then
      if cond.status == ConditionTrueV1beta1 then .done
      else checkConditionsV1beta1 rest
    else if cond.type == NamesAcceptedV1beta1 then
      if cond.status == ConditionFalseV1beta1 then
        .failed ("name conflict: " ++ cond.reason)
      else checkConditionsV1beta1 rest
    else checkConditionsV1beta1 rest

/-- The identical condition loop of `ValidateCRDV1` (v1 schema constants). -/
def checkConditionsV1 : List CRDCondition → PollResult
  | [] => .notDone
  | cond :: rest =>
    if cond.type == EstablishedV1 then
      if cond.status == ConditionTrueV1 then .done
      else checkConditionsV1 rest
    else if cond.type == NamesAcceptedV1 then
      if cond.status == ConditionFalseV1 then
        .failed ("name conflict: " ++ cond.reason)
      else checkConditionsV1 rest
    else checkConditionsV1 rest

/-- The body of the closure `ValidateCRD` passes to `wait.PollImmediate`:
not-found keeps polling, any other fetch error aborts, otherwise the
conditions are scanned. -/
def validateCRDPoll (fetch : GetCRDResult) : PollResult :=
  match fetch with
  | .notFound => .notDone
  | .otherError msg => .failed msg
  | .found conds => checkConditionsV1beta1 conds

/-- The body of the closure `ValidateCRDV1` passes to `wait.PollImmediate`. -/
def validateCRDPollV1 (fetch : GetCRDResult) : PollResult :=
  match fetch with
  | .notFound => .notDone
  | .otherError msg => .failed msg
  | .found conds => checkConditionsV1 conds

/-- `crdTimeout = 1 * time.Minute`, in seconds. -/
def crdTimeout : Nat := 60

/-- `retryInterval = 5 * time.Second`, in seconds. -/
def retryInterval : Nat := 5

/-- Outcome of a `wait.PollImmediate` run: `nil`, a condition error, or
`wait.ErrWaitTimeout`. -/
inductive WaitResult where
  | ok
  | err (msg : String)
  | timedOut
  deriving DecidableEq, Repr

/-- The poll loop: run the condition for poll indices `i, i+1, ...` with
`fuel` polls remaining; a done poll succeeds, a failed poll aborts with its
error, and exhausted fuel is the timeout error. -/
def pollLoop (cond : Nat → PollResult) : Nat → Nat → WaitResult
  | _, 0 => .timedOut
  | i, fuel + 1 =>
    match cond i with
    | .done => .ok
    | .failed msg => .err msg
    | .notDone => pollLoop cond (i + 1) fuel

/-- Modelled from the spec: `wait.PollImmediate(interval, timeout, cond)` is
an external collaborator (cluster API machinery) not present in this
repository. Per the spec, the waiter polls "at a fixed interval (5s) up to a
fixed timeout (60s)", the first poll happens immediately, and "if the timeout
elapses while still Pending, fail with a timeout error". Poll `i` happens at
time `i * interval`; polls run while that time is below `timeout`. -/
def pollImmediate (interval timeout : Nat) (cond : Nat → PollResult) : WaitResult :=
  pollLoop cond 0 (timeout / interval)

/-- `ValidateCRD(client, crdName)`, with the per-poll fetch outcome of the
v1beta1 CRD client supplied as a function of the poll index. -/
def ValidateCRD (fetch : Nat → GetCRDResult) : WaitResult :=
  pollImmediate retryInterval crdTimeout (fun i => validateCRDPoll (fetch i))

/-- `ValidateCRDV1(client, crdName)`, same loop over the v1 CRD client. -/
def ValidateCRDV1 (fetch : Nat → GetCRDResult) : WaitResult :=
  pollImmediate retryInterval crdTimeout (fun i => validateCRDPollV1 (fetch i))

/-- `apiextensionsv1.NamespaceScoped` -/
def NamespaceScoped : String := "Namespaced"

/-- `apiextensionsv1.ClusterScoped` -/
def ClusterScoped : String := "Cluster"

/-- `apiextensions.CustomResource` — the descriptor fields `CreateCRD` reads:
Name, Plural, Group, Version, Scope, Kind, ShortNames. -/
structure CustomResource where
  name : String
  plural : String
  group : String
  version : String
  scope : String
  kind : String
  shortNames : List String
  deriving DecidableEq, Repr

/-- One entry of `CustomResourceDefinitionSpec.Versions`; the schema is
reduced to the one field the code sets, `XPreserveUnknownFields`. -/
structure CRDVersion where
  name : String
  served : Bool
  storage : Bool
  xPreserveUnknownFields : Bool
  deriving DecidableEq, Repr

/-- `apiextensionsv1.CustomResourceDefinitionNames` as populated by
`CreateCRD`. -/
structure CRDNames where
  singular : String
  plural : String
  kind : String
  shortNames : List String
  deriving DecidableEq, Repr

/-- The `apiextensionsv1.CustomResourceDefinition` object `CreateCRD`
builds: metadata name, spec group, versions, scope and names. -/
structure CustomResourceDefinition where
  name : String
  group : String
  versions : List CRDVersion
  scope : String
  names : CRDNames
  deriving DecidableEq, Repr

/-- The CRD object construction inside `CreateCRD(resource)`: scope defaults
to namespaced unless the descriptor's scope equals `ClusterScoped`; the name
is `<plural>.<group>`; one version, served and storage, with
`XPreserveUnknownFields: true` (`ignoreSchemaValidation`). -/
def buildCRD (resource : CustomResource) : CustomResourceDefinition :=
  let scope := if resource.scope == ClusterScoped then ClusterScoped else NamespaceScoped
  { name := resource.plural ++ "." ++ resource.group
    group := resource.group
    versions := [{ name := resource.version
                   served := true
                   storage := true
                   xPreserveUnknownFields := true }]
    scope := scope
    names := { singular := resource.name
               plural := resource.plural
               kind := resource.kind
               shortNames := resource.shortNames } }

/-- `CreateCRD(resource)`: build the CRD object and submit it via
`apiextensions.Instance().RegisterCRD`, propagating its error. -/
def CreateCRD (register : CustomResourceDefinition → Except String Unit)
    (resource : CustomResource) : Except String Unit :=
  register (buildCRD resource)

/-- `v1.LocalObjectReference` — an image pull secret entry; only `Name` is
read. -/
structure LocalObjectReference where
  name : String
  deriving DecidableEq, Repr

/-- A container of the pod spec; only `Image` is read. -/
structure Container where
  image : String
  deriving DecidableEq, Repr

/-- `deploy.Spec.Template.Spec` — the pod spec fields read by
`GetImageRegistryFromDeployment`. `ImagePullSecrets` is `none` for a nil Go
slice and `some l` for a non-nil slice `l` (the code distinguishes them). -/
structure PodSpec where
  containers : List Container
  imagePullSecrets : Option (List LocalObjectReference)
  deriving DecidableEq, Repr

/-- `deploy.Spec.Template` -/
structure PodTemplateSpec where
  spec : PodSpec
  deriving DecidableEq, Repr

/-- `deploy.Spec` -/
structure DeploymentSpec where
  template : PodTemplateSpec
  deriving DecidableEq, Repr

/-- `appsv1.Deployment`, reduced to the fields the function reads. -/
structure Deployment where
  spec : DeploymentSpec
  deriving DecidableEq, Repr

/-- The message standing for a Go runtime panic from indexing an empty
slice. -/
def indexOutOfRangeMsg : String := "runtime error: index out of range"

/-- Character-list worker for `stringsSplit`: cut at each separator,
accumulating the current field in reverse. -/
def splitList (sep : Char) : List Char → List Char → List String
  | [], acc => [String.mk acc.reverse]
  | ch :: rest, acc =>
    if ch = sep then String.mk acc.reverse :: splitList sep rest []
    else splitList sep rest (ch :: acc)

/-- Go's `strings.Split(s, sep)` for a one-character separator (the code
splits on `"/"`): every separator occurrence cuts, empty fields kept, and the
result always has one more field than there are separators. -/
def stringsSplit (s : String) (sep : Char) : List String :=
  splitList sep s.toList []

/-- `GetImageRegistryFromDeployment(name, namespace)`, with the deployment
fetch outcome supplied. `Containers[0]` on an empty container list and
`imageSecret[0]` on a non-nil empty pull-secret list are Go panics, modelled
as the explicit out-of-range error branches of this total embedding. The
registry is the first `/`-separated field of the first container's image when
there are exactly three fields, else empty. -/
def GetImageRegistryFromDeployment (getDeployment : Except String Deployment) :
    Except String (String × String) :=
  match getDeployment with
  | .error e => .error e
  | .ok deploy =>
    match deploy.spec.template.spec.containers with
    | [] => .error indexOutOfRangeMsg
    | container :: _ =>
      let imageFields := stringsSplit container.image '/'
      let registry := if imageFields.length == 3 then imageFields.headD "" else ""
      match deploy.spec.template.spec.imagePullSecrets with
      | some [] => .error indexOutOfRangeMsg
      | some (secret :: _) => .ok (registry, secret.name)
      | none => .ok (registry, "")

/-! ## Theorems -/

/-- Counterexample to claim C1 as stated: a condition list holding an
`Established`-true condition on which the poll does not return success — the
earlier `NamesAccepted`-false condition wins, because the loop decides on the
first matching condition in list order. -/
theorem validateCRDPoll_claim_counterexample :
    (∃ cond ∈ [CRDCondition.mk NamesAcceptedV1beta1 ConditionFalseV1beta1 "conflict-reason",
               CRDCondition.mk EstablishedV1beta1 ConditionTrueV1beta1 ""],
        cond.type = EstablishedV1beta1 ∧ cond.status = ConditionTrueV1beta1) ∧
    validateCRDPoll (.found
      [CRDCondition.mk NamesAcceptedV1beta1 ConditionFalseV1beta1 "conflict-reason",
       CRDCondition.mk EstablishedV1beta1 ConditionTrueV1beta1 ""]) ≠ .done ∧
    validateCRDPoll (.found
      [CRDCondition.mk NamesAcceptedV1beta1 ConditionFalseV1beta1 "conflict-reason",
       CRDCondition.mk EstablishedV1beta1 ConditionTrueV1beta1 ""]) =
      .failed ("name conflict: " ++ "conflict-reason") := by
  refine ⟨⟨CRDCondition.mk EstablishedV1beta1 ConditionTrueV1beta1 "", ?_, rfl, rfl⟩, ?_, rfl⟩
  · simp
  · decide

/-- Claim C1 (amended): per poll, not-found keeps polling and any other fetch
error is propagated; otherwise the conditions are scanned in list order and
the first condition that is either `Established` with status true (success)
or `NamesAccepted` with status false (immediate name-conflict failure with
that condition's reason) decides; with no such condition the waiter stays
pending. -/
theorem validateCRDPoll_first_match :
    validateCRDPoll .notFound = .notDone ∧
    (∀ msg, validateCRDPoll (.otherError msg) = .failed msg) ∧
    (∀ conds : List CRDCondition,
      validateCRDPoll (.found conds) =
        match conds.find? (fun c =>
            (c.type == EstablishedV1beta1 && c.status == ConditionTrueV1beta1) ||
            (c.type == NamesAcceptedV1beta1 && c.status == ConditionFalseV1beta1)) with
        | none => .notDone
        | some c =>
          if c.type == EstablishedV1beta1 then .done
          else .failed ("name conflict: " ++ c.reason)) := by
  refine ⟨rfl, fun msg => rfl, ?_⟩
  intro conds
  show checkConditionsV1beta1 conds = _
  induction conds with
  | nil => rfl
  | cons c rest ih =>
    have h1 : (EstablishedV1beta1 == NamesAcceptedV1beta1) = false := by decide
    have h2 : (NamesAcceptedV1beta1 == EstablishedV1beta1) = false := by decide
    have h3 : NamesAcceptedV1beta1 ≠ EstablishedV1beta1 := by decide
    have h4 : ConditionFalseV1beta1 ≠ ConditionTrueV1beta1 := by decide
    have h5 : EstablishedV1beta1 ≠ NamesAcceptedV1beta1 := by decide
    by_cases hE : c.type = EstablishedV1beta1
    · by_cases hS : c.status = ConditionTrueV1beta1
      · simp [checkConditionsV1beta1, List.find?, hE, hS]
      · have hN : c.type ≠ NamesAcceptedV1beta1 := by
          rw [hE]; exact h5
        have hSb : (c.status == ConditionTrueV1beta1) = false := by
          simpa using hS
        simp [checkConditionsV1beta1, List.find?, hE, hS, hSb, hN, h1, h2, h3, h4, h5, ih]
    · by_cases hN : c.type = NamesAcceptedV1beta1
      · by_cases hF : c.status = ConditionFalseV1beta1
        · simp [checkConditionsV1beta1, List.find?, hE, hN, hF, h1, h2, h3, h4, h5]
        · have hFb : (c.status == ConditionFalseV1beta1) = false := by
            simpa using hF
          simp [checkConditionsV1beta1, List.find?, hE, hN, hF, hFb, h1, h2, h3, h4, h5, ih]
      · have hEb : (c.type == EstablishedV1beta1) = false := by
          simpa using hE
        have hNb : (c.type == NamesAcceptedV1beta1) = false := by
          simpa using hN
        simp [checkConditionsV1beta1, List.find?, hE, hN, hEb, hNb, ih]

/-- The two condition loops agree on every condition list: the v1beta1 and
v1 constants carry the same string values. -/
theorem checkConditions_v1beta1_eq_v1 :
    ∀ conds : List CRDCondition, checkConditionsV1beta1 conds = checkConditionsV1 conds := by
  intro conds
  induction conds with
  | nil => rfl
  | cons c rest ih =>
    simp only [checkConditionsV1beta1, checkConditionsV1,
      EstablishedV1beta1, EstablishedV1, NamesAcceptedV1beta1, NamesAcceptedV1,
      ConditionTrueV1beta1, ConditionTrueV1, ConditionFalseV1beta1, ConditionFalseV1, ih]

/-- The per-poll bodies of the two waiters agree on every fetch outcome. -/
theorem validateCRDPoll_eq_v1 :
    ∀ fetch : GetCRDResult, validateCRDPoll fetch = validateCRDPollV1 fetch := by
  intro fetch
  cases fetch with
  | notFound => rfl
  | otherError msg => rfl
  | found conds => exact checkConditions_v1beta1_eq_v1 conds

/-- Claim C6: the v1beta1 waiter and the v1 waiter implement the same
transition function — on the same condition triples each poll decides
identically, and the whole waiters produce the same outcome for every
per-poll fetch sequence. -/
theorem validateCRD_v1beta1_v1_equivalent :
    (∀ conds : List CRDCondition, checkConditionsV1beta1 conds = checkConditionsV1 conds) ∧
    (∀ fetch : GetCRDResult, validateCRDPoll fetch = validateCRDPollV1 fetch) ∧
    (∀ fetch : Nat → GetCRDResult, ValidateCRD fetch = ValidateCRDV1 fetch) := by
  refine ⟨checkConditions_v1beta1_eq_v1, validateCRDPoll_eq_v1, ?_⟩
  intro fetch
  unfold ValidateCRD ValidateCRDV1 pollImmediate
  congr 1
  funext i
  exact validateCRDPoll_eq_v1 (fetch i)

/-- With every poll undecided, the loop exhausts its fuel and times out. -/
theorem pollLoop_all_notDone (cond : Nat → PollResult)
    (h : ∀ i, cond i = .notDone) : ∀ i fuel, pollLoop cond i fuel = .timedOut := by
  intro i fuel
  induction fuel generalizing i with
  | zero => rfl
  | succ n ih => simp [pollLoop, h i, ih]

/-- Claim C7: the waiters poll at the fixed 5-second interval with the fixed
60-second timeout; the first poll is immediate; when no poll decides the
waiter ends with the timeout error rather than polling forever; and a first
fetch already reporting `Established` true succeeds within one poll. -/
theorem validateCRD_poll_window :
    retryInterval = 5 ∧ crdTimeout = 60 ∧
    (∀ fetch : Nat → GetCRDResult,
      (∀ i, validateCRDPoll (fetch i) = .notDone) → ValidateCRD fetch = .timedOut) ∧
    (∀ (fetch : Nat → GetCRDResult) (rest : List CRDCondition) (r : String),
      fetch 0 = .found
        ({ type := EstablishedV1beta1, status := ConditionTrueV1beta1, reason := r } :: rest) →
      ValidateCRD fetch = .ok) := by
  refine ⟨rfl, rfl, ?_, ?_⟩
  · intro fetch h
    exact pollLoop_all_notDone (fun i => validateCRDPoll (fetch i)) h 0 _
  · intro fetch rest r h
    show pollLoop (fun i => validateCRDPoll (fetch i)) 0 (crdTimeout / retryInterval) = .ok
    have hdiv : crdTimeout / retryInterval = 12 := rfl
    rw [hdiv]
    simp [pollLoop, h, validateCRDPoll, checkConditionsV1beta1]

/-- Witness for C7: a CRD that never appears times out; a first fetch with
`Established` true succeeds. -/
theorem validateCRD_poll_window_witness :
    ValidateCRD (fun _ => .notFound) = .timedOut ∧
    ValidateCRD (fun _ => .found
      [{ type := EstablishedV1beta1, status := ConditionTrueV1beta1, reason := "" }]) = .ok :=
  ⟨validateCRD_poll_window.2.2.1 (fun _ => .notFound) (fun _ => rfl),
   validateCRD_poll_window.2.2.2
     (fun _ => .found
       [{ type := EstablishedV1beta1, status := ConditionTrueV1beta1, reason := "" }])
     [] "" rfl⟩

/-- Claim C4: whenever the PVC listing succeeds with an empty result, both
`GetPVCsForGroupSnapshot` and `GetVolumeNamesFromLabelSelector` return the
no-candidates error and no result list. -/
theorem getPVCsForGroupSnapshot_empty_fails (c : CoreClient) (ns : String)
    (labels : List (String × String))
    (h : c.getPersistentVolumeClaims ns labels = .ok []) :
    GetPVCsForGroupSnapshot c ns labels = .error (noPVCsErrMsg labels) ∧
    GetVolumeNamesFromLabelSelector c ns labels = .error (noPVCsErrMsg labels) := by
  constructor
  · simp [GetPVCsForGroupSnapshot, h]
  · simp [GetVolumeNamesFromLabelSelector, GetPVCsForGroupSnapshot, h]

/-- A core client whose listing returns no PVCs, for the C4 witness. -/
def emptyListClient : CoreClient :=
  { getPersistentVolumeClaims := fun _ _ => .ok []
    getVolumeForPersistentVolumeClaim := fun _ => .ok "" }

/-- Witness for C4 at a concrete client returning an empty PVC list. -/
theorem getPVCsForGroupSnapshot_empty_fails_witness :
    GetPVCsForGroupSnapshot emptyListClient "ns1" [("app", "data")] =
      .error (noPVCsErrMsg [("app", "data")]) ∧
    GetVolumeNamesFromLabelSelector emptyListClient "ns1" [("app", "data")] =
      .error (noPVCsErrMsg [("app", "data")]) :=
  getPVCsForGroupSnapshot_empty_fails emptyListClient "ns1" [("app", "data")] rfl

/-- `getVolumeNamesLoop` maps each PVC to its volume, in order, when every
lookup succeeds. -/
theorem getVolumeNamesLoop_ok (c : CoreClient) (vol : PersistentVolumeClaim → String) :
    ∀ l : List PersistentVolumeClaim,
      (∀ q ∈ l, c.getVolumeForPersistentVolumeClaim q = .ok (vol q)) →
      getVolumeNamesLoop c l = .ok (l.map vol) := by
  intro l
  induction l with
  | nil => intro _; rfl
  | cons q rest ih =>
    intro h
    have hq := h q (List.mem_cons_self q rest)
    have hr := ih (fun x hx => h x (List.mem_cons_of_mem q hx))
    simp [getVolumeNamesLoop, hq, hr]

/-- Claim C2: when the listing succeeds with a non-empty PVC list, no listed
PVC is `Pending`, and every per-PVC volume lookup succeeds,
`GetVolumeNamesFromLabelSelector` returns one volume name per selected PVC,
in the selection order: the i-th name is the resolved volume of the i-th
PVC. -/
theorem getVolumeNamesFromLabelSelector_all_bound (c : CoreClient) (ns : String)
    (labels : List (String × String)) (pvcs : List PersistentVolumeClaim)
    (vol : PersistentVolumeClaim → String)
    (hlist : c.getPersistentVolumeClaims ns labels = .ok pvcs)
    (hne : pvcs ≠ [])
    (hnp : ∀ q ∈ pvcs, q.phase ≠ claimPending)
    (hvol : ∀ q ∈ pvcs, c.getVolumeForPersistentVolumeClaim q = .ok (vol q)) :
    GetVolumeNamesFromLabelSelector c ns labels = .ok (pvcs.map vol) ∧
    (pvcs.map vol).length = pvcs.length ∧
    (∀ i q, pvcs.get? i = some q →
      c.getVolumeForPersistentVolumeClaim q = .ok (vol q) ∧
      (pvcs.map vol).get? i = some (vol q)) := by
  have hfind : pvcs.find? (fun q => q.phase == claimPending) = none := by
    rw [List.find?_eq_none]
    intro q hq
    simpa using hnp q hq
  have hlen : pvcs.length ≠ 0 := by
    intro h0
    exact hne (List.length_eq_zero.mp h0)
  refine ⟨?_, by simp, ?_⟩
  · rw [GetVolumeNamesFromLabelSelector, GetPVCsForGroupSnapshot, hlist]
    simp only [hlen, if_false, hfind]
    exact getVolumeNamesLoop_ok c vol pvcs hvol
  · intro i q hq
    have hqmem : q ∈ pvcs := List.get?_mem hq
    refine ⟨hvol q hqmem, ?_⟩
    rw [List.get?_map, hq]
    rfl

/-- First PVC for the C2 witness. -/
def pvcA : PersistentVolumeClaim := { ns := "ns1", name := "pvc-a", phase := claimBound }

/-- Second PVC for the C2 witness. -/
def pvcB : PersistentVolumeClaim := { ns := "ns1", name := "pvc-b", phase := claimBound }

/-- A core client returning two bound PVCs whose volumes are
`vol-<pvc name>`. -/
def boundClient : CoreClient :=
  { getPersistentVolumeClaims := fun _ _ => .ok [pvcA, pvcB]
    getVolumeForPersistentVolumeClaim := fun q => .ok ("vol-" ++ q.name) }

/-- Witness for C2: the spec's worked example — two bound PVCs resolve to
their two volumes in order. -/
theorem getVolumeNamesFromLabelSelector_all_bound_witness :
    GetVolumeNamesFromLabelSelector boundClient "ns1" [("app", "data")] =
      .ok ([pvcA, pvcB].map (fun q => "vol-" ++ q.name)) ∧
    ([pvcA, pvcB].map (fun q => "vol-" ++ q.name)).length = [pvcA, pvcB].length ∧
    (∀ i q, [pvcA, pvcB].get? i = some q →
      boundClient.getVolumeForPersistentVolumeClaim q = .ok ("vol-" ++ q.name) ∧
      ([pvcA, pvcB].map (fun q => "vol-" ++ q.name)).get? i = some ("vol-" ++ q.name)) :=
  getVolumeNamesFromLabelSelector_all_bound boundClient "ns1" [("app", "data")]
    [pvcA, pvcB] (fun q => "vol-" ++ q.name) rfl (by decide)
    (by intro q hq; simp only [List.mem_cons, List.mem_singleton] at hq
        rcases hq with rfl | rfl | h
        · decide
        · decide
        · exact absurd h (List.not_mem_nil q))
    (by intro q hq; rfl)

/-- Claim C3: when the listing succeeds and some listed PVC is `Pending`,
both functions fail with the error naming a pending PVC's namespace, name and
phase, and return no list. -/
theorem getPVCsForGroupSnapshot_pending_fails (c : CoreClient) (ns : String)
    (labels : List (String × String)) (pvcs : List PersistentVolumeClaim)
    (pvc : PersistentVolumeClaim)
    (hlist : c.getPersistentVolumeClaims ns labels = .ok pvcs)
    (hmem : pvc ∈ pvcs) (hp : pvc.phase = claimPending) :
    ∃ p, p ∈ pvcs ∧ p.phase = claimPending ∧
      GetPVCsForGroupSnapshot c ns labels = .error (pendingPVCErrMsg p) ∧
      GetVolumeNamesFromLabelSelector c ns labels = .error (pendingPVCErrMsg p) := by
  have hsome : (pvcs.find? (fun q => q.phase == claimPending)).isSome := by
    rw [List.find?_isSome]
    exact ⟨pvc, hmem, by simp [hp]⟩
  obtain ⟨p, hfind⟩ := Option.isSome_iff_exists.mp hsome
  have hpmem : p ∈ pvcs := List.mem_of_find?_eq_some hfind
  have hpp : p.phase = claimPending := by
    simpa using List.find?_some hfind
  have hlen : pvcs.length ≠ 0 := by
    intro h0
    rw [List.length_eq_zero] at h0
    subst h0
    exact absurd hmem (List.not_mem_nil pvc)
  refine ⟨p, hpmem, hpp, ?_, ?_⟩
  · rw [GetPVCsForGroupSnapshot, hlist]
    simp only [hlen, if_false, hfind]
  · rw [GetVolumeNamesFromLabelSelector, GetPVCsForGroupSnapshot, hlist]
    simp only [hlen, if_false, hfind]

/-- A pending PVC for the C3 witness. -/
def pvcPendingC : PersistentVolumeClaim := { ns := "ns1", name := "pvc-c", phase := claimPending }

/-- A core client returning one bound and one pending PVC. -/
def mixedClient : CoreClient :=
  { getPersistentVolumeClaims := fun _ _ => .ok [pvcA, pvcPendingC]
    getVolumeForPersistentVolumeClaim := fun q => .ok ("vol-" ++ q.name) }

/-- Witness for C3: one pending PVC among bound ones aborts the whole
resolution. -/
theorem getPVCsForGroupSnapshot_pending_fails_witness :
    ∃ p, p ∈ [pvcA, pvcPendingC] ∧ p.phase = claimPending ∧
      GetPVCsForGroupSnapshot mixedClient "ns1" [("app", "data")] =
        .error (pendingPVCErrMsg p) ∧
      GetVolumeNamesFromLabelSelector mixedClient "ns1" [("app", "data")] =
        .error (pendingPVCErrMsg p) :=
  getPVCsForGroupSnapshot_pending_fails mixedClient "ns1" [("app", "data")]
    [pvcA, pvcPendingC] pvcPendingC rfl (by decide) rfl

/-- A PVC in `Lost` phase: not `Bound`, yet not rejected by the code. -/
def lostPVC : PersistentVolumeClaim := { ns := "ns1", name := "pvc-lost", phase := claimLost }

/-- A core client whose listing returns exactly one `Lost`-phase PVC. -/
def lostClient : CoreClient :=
  { getPersistentVolumeClaims := fun _ _ => .ok [lostPVC]
    getVolumeForPersistentVolumeClaim := fun _ => .ok "vol-lost" }

/-- Claim C5: the claim (and the function's own doc comment, "All PVCs need
to be bound") requires every member of a successful result to be `Bound`, but
the code only rejects `Pending`: a `Lost` PVC is returned as a valid
group-snapshot candidate. -/
theorem getPVCsForGroupSnapshot_accepts_lost_phase :
    GetPVCsForGroupSnapshot lostClient "ns1" [] = .ok [lostPVC] ∧
    lostPVC ∈ [lostPVC] ∧ lostPVC.phase ≠ claimBound := by
  refine ⟨rfl, List.mem_singleton.mpr rfl, ?_⟩
  decide

/-- Claim C8: `CreateCRD` submits exactly `buildCRD resource`; the built CRD
is named `<plural>.<group>`, carries one served+storage version equal to the
descriptor's version with unknown fields preserved, is cluster-scoped exactly
when the descriptor's scope equals the cluster-wide constant (namespaced for
every other value), and copies the descriptor's names. -/
theorem createCRD_builds_expected_object (r : CustomResource) :
    (∀ register, CreateCRD register r = register (buildCRD r)) ∧
    (buildCRD r).name = r.plural ++ "." ++ r.group ∧
    (buildCRD r).group = r.group ∧
    (buildCRD r).versions = [⟨r.version, true, true, true⟩] ∧
    ((buildCRD r).scope = ClusterScoped ↔ r.scope = ClusterScoped) ∧
    ((buildCRD r).scope = ClusterScoped ∨ (buildCRD r).scope = NamespaceScoped) ∧
    (buildCRD r).names = ⟨r.name, r.plural, r.kind, r.shortNames⟩ := by
  refine ⟨fun register => rfl, rfl, rfl, rfl, ?_, ?_, rfl⟩
  · by_cases h : r.scope = ClusterScoped <;>
      simp [buildCRD, h, ClusterScoped, NamespaceScoped]
  · by_cases h : r.scope = ClusterScoped <;> simp [buildCRD, h]

/-- A deployment with an empty container list: `Containers[0]` is out of
bounds. -/
def noContainerDeploy : Deployment :=
  { spec := { template := { spec := { containers := [], imagePullSecrets := none } } } }

/-- A deployment with one container but a non-nil, empty image-pull-secrets
list: `imageSecret != nil` holds yet `imageSecret[0]` is out of bounds. -/
def emptySecretsDeploy : Deployment :=
  { spec := { template := { spec :=
      { containers := [{ image := "registry/repo/image:tag" }]
        imagePullSecrets := some [] } } } }

/-- Claim C10: the indexing in `GetImageRegistryFromDeployment` has no bounds
check — for an empty container list, and for a non-nil but empty
image-pull-secrets list, the total embedding's out-of-range error branch is
reached. -/
theorem getImageRegistryFromDeployment_index_out_of_range :
    GetImageRegistryFromDeployment (.ok noContainerDeploy) = .error indexOutOfRangeMsg ∧
    GetImageRegistryFromDeployment (.ok emptySecretsDeploy) = .error indexOutOfRangeMsg :=
  ⟨rfl, rfl⟩

/-- Claim C9: whenever `GetImageRegistryFromDeployment` returns a result for
a fetched deployment, the registry is the first `/`-separated field of the
first container's image when that image has exactly three fields and empty
when it has one or two; the pull-secret name is the first image-pull-secrets
entry, or empty when the list is absent. -/
theorem getImageRegistryFromDeployment_fields (d : Deployment) (reg sec : String)
    (h : GetImageRegistryFromDeployment (.ok d) = .ok (reg, sec)) :
    ∃ container rest, d.spec.template.spec.containers = container :: rest ∧
      reg = (if (stringsSplit container.image '/').length = 3
             then (stringsSplit container.image '/').headD "" else "") ∧
      ((stringsSplit container.image '/').length = 1 ∨
          (stringsSplit container.image '/').length = 2 → reg = "") ∧
      (d.spec.template.spec.imagePullSecrets = none → sec = "") ∧
      (∀ s srest, d.spec.template.spec.imagePullSecrets = some (s :: srest) →
        sec = s.name) := by
  rcases hc : d.spec.template.spec.containers with _ | ⟨container, rest⟩
  · rw [GetImageRegistryFromDeployment, hc] at h
    exact absurd h (by simp)
  · refine ⟨container, rest, rfl, ?_⟩
    rcases hs : d.spec.template.spec.imagePullSecrets with _ | ⟨_ | ⟨s, srest⟩⟩
    · rw [GetImageRegistryFromDeployment, hc, hs] at h
      simp only [Except.ok.injEq, Prod.mk.injEq] at h
      obtain ⟨hreg, hsec⟩ := h
      refine ⟨?_, ?_, fun _ => hsec.symm, ?_⟩
      · rw [← hreg]; simp
      · intro hlen
        rw [← hreg]
        rcases hlen with h1 | h1 <;> simp [h1]
      · intro s srest hcontra
        exact absurd hcontra (by simp)
    · rw [GetImageRegistryFromDeployment, hc, hs] at h
      exact absurd h (by simp)
    · rw [GetImageRegistryFromDeployment, hc, hs] at h
      simp only [Except.ok.injEq, Prod.mk.injEq] at h
      obtain ⟨hreg, hsec⟩ := h
      refine ⟨?_, ?_, ?_, ?_⟩
      · rw [← hreg]; simp
      · intro hlen
        rw [← hreg]
        rcases hlen with h1 | h1 <;> simp [h1]
      · intro hcontra
        exact absurd hcontra (by simp)
      · intro s2 srest2 hsome
        simp only [Option.some.injEq, List.cons.injEq] at hsome
        rw [← hsec, hsome.1]

/-- A deployment with a three-field image and one pull secret, for the C9
witness. -/
def registryDeploy : Deployment :=
  { spec := { template := { spec :=
      { containers := [{ image := "registry.io/repo/image:tag" }]
        imagePullSecrets := some [{ name := "pull-secret" }] } } } }

/-- Witness for C9 at a concrete deployment: registry `registry.io`, secret
`pull-secret`. -/
theorem getImageRegistryFromDeployment_fields_witness :
    ∃ container rest,
      registryDeploy.spec.template.spec.containers = container :: rest ∧
      "registry.io" = (if (stringsSplit container.image '/').length = 3
                       then (stringsSplit container.image '/').headD "" else "") ∧
      ((stringsSplit container.image '/').length = 1 ∨
          (stringsSplit container.image '/').length = 2 → "registry.io" = "") ∧
      (registryDeploy.spec.template.spec.imagePullSecrets = none → "pull-secret" = "") ∧
      (∀ s srest,
        registryDeploy.spec.template.spec.imagePullSecrets = some (s :: srest) →
        "pull-secret" = s.name) :=
  getImageRegistryFromDeployment_fields registryDeploy "registry.io" "pull-secret" rfl

end K8sUtils
